import Mathlib

/-!
Verification of the price-extraction heuristics and scraping orchestration of
the Thordata travel-price tracker (`scraper.py`, `run_scraper.py`, `config.py`).

Page texts are modelled as `List Char` (the scraper works on
`soup.get_text(" ", strip=True)`, i.e. on plain visible text; the HTML-to-text
step of BeautifulSoup is the boundary of the model, so the functions here take
the already-flattened page text as input, exactly as §4.2 of the spec treats
them).  Python `re` character classes are modelled on the characters that occur
in the code's patterns: `\d` as ASCII decimal digits (`Char.isDigit`), `\s` as
`Char.isWhitespace`.  Python arbitrary-precision `int` values are modelled as
`Nat`; the final `float(...)` conversions in the code are exact on every value
these pages can realistically produce (below 2^53), so prices are kept as
`Option Nat` (`none` = Python `None`).
-/

namespace TravelTracker

/-- The character class `[\d,]` of the price-token regex `₹\s*([\d,]+)`. -/
def isNumChar (c : Char) : Bool := c.isDigit || c == ','

/-- Model of `re.finditer(r"₹\s*([\d,]+)", text)` / `re.findall` with the same pattern:
scan for `'₹'`, skip `\s*`, capture the maximal nonempty `[\d,]+` group.
Returns the captured digit groups in document order.  `re.finditer` resumes
scanning after a whole match, while this definition resumes at the character
after the `'₹'`; the two are equivalent because the rest of the matched span
(whitespace, digits and commas) cannot contain the `'₹'` that any further
match has to start with. -/
def findTokens : List Char → List (List Char)
  | [] => []
  | c :: cs =>
    if c = '₹' then
      let g := (cs.dropWhile Char.isWhitespace).takeWhile isNumChar
      if g = [] then findTokens cs else g :: findTokens cs
    else findTokens cs

/-- Model of `val.replace(",", "")` applied to a captured digit group. -/
def stripCommas (g : List Char) : List Char := g.filter (fun c => c ≠ ',')

/-- Value of the ASCII digit `c`. -/
def digitVal (c : Char) : Nat := c.toNat - 48

/-- Base-10 reading of a digit string, most-significant digit first. -/
def digitsToNat (ds : List Char) : Nat := ds.foldl (fun a c => 10 * a + digitVal c) 0

/-- Model of `int(val.replace(",", ""))` on a captured `[\d,]+` group: strip the commas
and read the rest as a base-10 number; `int("")` raises `ValueError`, modelled
as `none`.  (A captured group consists of digits and commas only, so the empty
string is the only `ValueError` case.) -/
def parseGroup (g : List Char) : Option Nat :=
  let ds := stripCommas g
  if ds = [] then none else some (digitsToNat ds)

/-- The numeric values of all price tokens of a page text, in document order;
groups that fail `int(...)` are skipped (`except ValueError: continue`). -/
def tokenValues (text : List Char) : List Nat := (findTokens text).filterMap parseGroup

/-- Helper for `commaFmt`: input and output are digit lists least-significant
digit first; inserts a `','` after every three digits. -/
def commaFmtRev : List Char → List Char
  | [] => []
  | [d1] => [d1]
  | [d1, d2] => [d1, d2]
  | [d1, d2, d3] => [d1, d2, d3]
  | d1 :: d2 :: d3 :: rest => d1 :: d2 :: d3 :: ',' :: commaFmtRev rest

/-- Python's `f"{v:,}"` for a nonnegative integer: decimal digits with a comma
every three digits from the right. -/
def commaFmt (n : Nat) : List Char := (commaFmtRev (Nat.toDigits 10 n).reverse).reverse

/-- The dict returned by the three `parse_*_page` functions, minus the
`page_title` field of the Skyscanner variant (presentation-only, never read by
any claim or by the orchestrators' price logic). -/
structure ExtractResult where
  currency : List Char
  price : Option Nat
  price_raw : List Char
deriving DecidableEq, Repr

/-- Constant `DEFAULT_CURRENCY` from `config.py`. -/
def DEFAULT_CURRENCY : List Char := "INR".toList

/-- Constant `PROVIDER_NAME` from `config.py`. -/
def PROVIDER_NAME : List Char := "Skyscanner".toList

/-! ### Variant A — Skyscanner (`parse_skyscanner_page`) -/

/-- Lower-cased label phrase of the regex
`re.search(r"Cheapest deal[^₹]*₹\s*([\d,]+)", full_text, flags=re.IGNORECASE)`. -/
def labelLower : List Char := "cheapest deal".toList

/-- Attempt the part of the labelled regex after the literal label:
`[^₹]*₹\s*([\d,]+)`.  `[^₹]*` cannot cross a `'₹'`, so the greedy match with
backtracking succeeds iff a `'₹'` occurs and is followed by `\s*` and a
nonempty `[\d,]+` group. -/
def matchAfterLabel (rest : List Char) : Option (List Char) :=
  match rest.dropWhile (fun c => c ≠ '₹') with
  | [] => none
  | _ :: r3 =>
    let r4 := r3.dropWhile Char.isWhitespace
    let g := r4.takeWhile isNumChar
    if g = [] then none else some g

/-- Attempt the whole labelled regex at one start position: the 13-character
label `Cheapest deal` case-insensitively, then `matchAfterLabel`. -/
def tryAt (s : List Char) : Option (List Char) :=
  if (s.take 13).map Char.toLower = labelLower then matchAfterLabel (s.drop 13) else none

/-- Model of `re.search` of the labelled regex: try every start position left to right,
return the first captured digit group. -/
def findCheapest : List Char → Option (List Char)
  | [] => none
  | c :: cs =>
    match tryAt (c :: cs) with
    | some g => some g
    | none => findCheapest cs

/-- Step 2 of `parse_skyscanner_page`: fallback to `min` of all `₹` amounts,
`price_raw = f"₹ {v:,}"`; when no value parses, price stays `None` and the raw
string stays empty. -/
def skyFallbackResult (text : List Char) : ExtractResult :=
  match (tokenValues text).min? with
  | some v => ⟨DEFAULT_CURRENCY, some v, '₹' :: ' ' :: commaFmt v⟩
  | none => ⟨DEFAULT_CURRENCY, none, []⟩

/-- Model of `parse_skyscanner_page` (Variant A): labelled `Cheapest deal` extraction
with `price_raw = f"₹ {numeric_str}"`; on a missing match or a `ValueError`
from the captured group, the min-of-all-tokens fallback runs. -/
def parse_skyscanner_page (text : List Char) : ExtractResult :=
  match findCheapest text with
  | some g =>
    match parseGroup g with
    | some v => ⟨DEFAULT_CURRENCY, some v, '₹' :: ' ' :: g⟩
    | none => skyFallbackResult text
  | none => skyFallbackResult text

/-! ### Variant B — OYO (`parse_oyo_page`) -/

/-- The chosen value of `parse_oyo_page`: first `N = 20` values in document
order; keep those `≥ 300`; minimum of the kept ones, else minimum of the
unfiltered first 20; `None` when there are no values at all. -/
def chooseTopPrice (ordered : List Nat) : Option Nat :=
  let top := ordered.take 20
  if top.isEmpty then none
  else
    match (top.filter (fun v => 300 ≤ v)).min? with
    | some m => some m
    | none => top.min?

/-- Model of `parse_oyo_page` (Variant B), with `price_raw = f"₹ {chosen:,}"`. -/
def parse_oyo_page (text : List Char) : ExtractResult :=
  match chooseTopPrice (tokenValues text) with
  | some chosen => ⟨"INR".toList, some chosen, '₹' :: ' ' :: commaFmt chosen⟩
  | none => ⟨"INR".toList, none, []⟩

/-! ### Variant C — Gozo Cabs (`parse_gozo_page`) -/

/-- The chosen value of `parse_gozo_page`: all values, keep those `≥ 100`,
minimum of the kept ones, else (`elif values:`) minimum of all values, else
`None`.  The code's outer `if matches:` guard is equivalent: with no regex
match there are no values either. -/
def chooseGozoPrice (values : List Nat) : Option Nat :=
  match (values.filter (fun v => 100 ≤ v)).min? with
  | some m => some m
  | none => values.min?

/-- Model of `parse_gozo_page` (Variant C), with `price_raw = f"₹ {chosen:,}"`. -/
def parse_gozo_page (text : List Char) : ExtractResult :=
  match chooseGozoPrice (tokenValues text) with
  | some chosen => ⟨"INR".toList, some chosen, '₹' :: ' ' :: commaFmt chosen⟩
  | none => ⟨"INR".toList, none, []⟩

/-! ### Dates and URL construction (`_build_oyo_url_with_dates`, `config.py`) -/

/-- Constant `TRAVEL_DATE_STR` from `config.py`. -/
def TRAVEL_DATE_STR : List Char := "2025-12-07".toList

/-- A Gregorian calendar date, as produced by `datetime.date`. -/
structure Date where
  year : Nat
  month : Nat
  day : Nat
deriving DecidableEq, Repr

/-- Gregorian leap-year rule used by `datetime`. -/
def isLeapYear (y : Nat) : Bool := y % 4 = 0 && (y % 100 ≠ 0 || y % 400 = 0)

/-- Number of days of month `m` of year `y`. -/
def daysInMonth (y m : Nat) : Nat :=
  if m = 2 then (if isLeapYear y then 29 else 28)
  else if m = 4 ∨ m = 6 ∨ m = 9 ∨ m = 11 then 30 else 31

/-- Model of `datetime.datetime.strptime(s, "%Y-%m-%d").date()` on the zero-padded ISO
dates used by the configuration: four year digits, dash, two month digits,
dash, two day digits, with the ranges `datetime` validates; anything else
raises, modelled as `none`. -/
def parseISODate (s : List Char) : Option Date :=
  match s with
  | [y1, y2, y3, y4, '-', m1, m2, '-', d1, d2] =>
    if ([y1, y2, y3, y4, m1, m2, d1, d2].all Char.isDigit) then
      let y := digitsToNat [y1, y2, y3, y4]
      let m := digitsToNat [m1, m2]
      let d := digitsToNat [d1, d2]
      if 1 ≤ m ∧ m ≤ 12 ∧ 1 ≤ d ∧ d ≤ daysInMonth y m then some ⟨y, m, d⟩ else none
    else none
  | _ => none

/-- Model of `d + datetime.timedelta(days=1)`. -/
def nextDay (d : Date) : Date :=
  if d.day < daysInMonth d.year d.month then ⟨d.year, d.month, d.day + 1⟩
  else if d.month < 12 then ⟨d.year, d.month + 1, 1⟩
  else ⟨d.year + 1, 1, 1⟩

/-- The run's travel date: `strptime(TRAVEL_DATE_STR, "%Y-%m-%d")`.  The
configuration constant is a valid date, so the `getD` default is dead; theorem
`c9_oyo_url_construction` proves `parseISODate TRAVEL_DATE_STR` is `some` of
exactly this value. -/
def travelDate : Date := (parseISODate TRAVEL_DATE_STR).getD ⟨1970, 1, 1⟩

/-- Decimal digit string of `n` (no padding). -/
def natDigits (n : Nat) : List Char := Nat.toDigits 10 n

/-- Two-digit zero-padded field of `strftime` (`%d`, `%m`). -/
def pad2 (n : Nat) : List Char := if n < 10 then '0' :: natDigits n else natDigits n

/-- Four-digit zero-padded field of `strftime` (`%Y`). -/
def pad4 (n : Nat) : List Char :=
  List.replicate (4 - (natDigits n).length) '0' ++ natDigits n

/-- Model of `d.strftime("%d/%m/%Y")`. -/
def fmtDMY (d : Date) : List Char :=
  pad2 d.day ++ '/' :: pad2 d.month ++ '/' :: pad4 d.year

/-- Model of `d.strftime("%Y-%m-%d")`. -/
def fmtYMD (d : Date) : List Char :=
  pad4 d.year ++ '-' :: pad2 d.month ++ '-' :: pad2 d.day

/-- Uppercase hexadecimal digit, for percent-encoding. -/
def hexDigit (n : Nat) : Char := if n < 10 then Char.ofNat (48 + n) else Char.ofNat (55 + n)

/-- Model of `urllib.parse.quote_plus` on one character: unreserved ASCII characters
(letters, digits, `_.-~`) are kept, a space becomes `'+'`, anything else is
percent-encoded byte-wise; the characters appearing in this configuration are
ASCII, so one character is one byte. -/
def quotePlusChar (c : Char) : List Char :=
  if c.isAlphanum || c = '_' || c = '.' || c = '-' || c = '~' then [c]
  else if c = ' ' then ['+']
  else ['%', hexDigit (c.toNat / 16), hexDigit (c.toNat % 16)]

/-- Model of `urllib.parse.quote_plus` on an ASCII string. -/
def quotePlus (s : List Char) : List Char := s.flatMap quotePlusChar

/-- Model of `urllib.parse.urlencode`: `key=value` pairs (both `quote_plus`-encoded)
joined with `&`, in insertion order of the dict. -/
def urlencode (ps : List (List Char × List Char)) : List Char :=
  List.intercalate ['&'] (ps.map fun p => quotePlus p.1 ++ '=' :: quotePlus p.2)

/-- The `params` dict of `_build_oyo_url_with_dates`, in insertion order. -/
def oyoParams : List (List Char × List Char) :=
  [("checkin".toList, fmtDMY travelDate),
   ("checkout".toList, fmtDMY (nextDay travelDate)),
   ("guests".toList, "1".toList),
   ("rooms".toList, "1".toList),
   ("sort".toList, "price".toList),
   ("sortOrder".toList, "ascending".toList)]

/-- Model of `_build_oyo_url_with_dates(base_url)`: attach the date-derived,
price-ascending-sort query string, separated by `'&'` when the base URL
already contains `'?'` and by `'?'` otherwise. -/
def build_oyo_url_with_dates (base_url : List Char) : List Char :=
  base_url ++ (if base_url.contains '?' then ['&'] else ['?']) ++ urlencode oyoParams

/-! ### Orchestrators (`scrape_flight_prices`, `scrape_hotel_rates`,
`scrape_rental_car_prices`)

The network is the boundary of the model: a fetch oracle
`fetch : List Char → Option (List Char)` maps a URL to the page text on
success and to `none` when `fetch_page` raises (`RequestException` or any
other exception), which is exactly what the orchestrators' `try/except`
blocks observe.  `time.sleep` pacing and log `print`s have no bearing on the
returned rows and are dropped. -/

/-- One entry of `FLIGHT_ROUTES` in `config.py`. -/
structure FlightRoute where
  route_code : List Char
  origin : List Char
  destination : List Char
  route_name : List Char
  url : List Char
  travel_date : Option (List Char)
deriving DecidableEq, Repr

/-- One row of the list returned by `scrape_flight_prices`. -/
structure FlightRow where
  route_code : List Char
  origin : List Char
  destination : List Char
  route_name : List Char
  provider_name : List Char
  currency : List Char
  price : Option Nat
  price_raw : List Char
  url : List Char
  travel_date : Option (List Char)
deriving DecidableEq, Repr

/-- The `row` dict assembled by `scrape_flight_prices` for one route. -/
def flightRowOf (route : FlightRoute) (parsed : ExtractResult) : FlightRow :=
  { route_code := route.route_code
    origin := route.origin
    destination := route.destination
    route_name := route.route_name
    provider_name := PROVIDER_NAME
    currency := parsed.currency
    price := parsed.price
    price_raw := parsed.price_raw
    url := route.url
    travel_date := route.travel_date }

/-- Model of `scrape_flight_prices`: per route, fetch the single URL; on success parse
and append the row; on any exception skip the route and continue. -/
def scrape_flight_prices (fetch : List Char → Option (List Char))
    (routes : List FlightRoute) : List FlightRow :=
  routes.filterMap fun route =>
    (fetch route.url).map fun html => flightRowOf route (parse_skyscanner_page html)

/-- One entry of `HOTEL_STAYS` in `config.py`; the code normalises a single
URL string to a one-element list (`base_urls`), so the field is the
normalised list. -/
structure HotelStay where
  hotel_code : List Char
  city : List Char
  hotel_name : List Char
  urls : List (List Char)
deriving DecidableEq, Repr

/-- One row of the list returned by `scrape_hotel_rates`. -/
structure HotelRow where
  hotel_code : List Char
  city : List Char
  hotel_name : List Char
  provider_name : List Char
  currency : List Char
  price : Option Nat
  price_raw : List Char
  url : List Char
  checkin_date : List Char
  checkout_date : List Char
deriving DecidableEq, Repr

/-- The `candidate_urls` of `scrape_hotel_rates` for one stay. -/
def hotelCandidates (stay : HotelStay) : List (List Char) :=
  stay.urls.map build_oyo_url_with_dates

/-- The candidate loop of `scrape_hotel_rates`: attempt the candidates in
order, return the first `(chosen_url, html)` that fetches, `none` when all
fail. -/
def tryFetchFirst (fetch : List Char → Option (List Char)) :
    List (List Char) → Option (List Char × List Char)
  | [] => none
  | u :: us =>
    match fetch u with
    | some html => some (u, html)
    | none => tryFetchFirst fetch us

/-- The `row` dict assembled by `scrape_hotel_rates` for one stay. -/
def hotelRowOf (stay : HotelStay) (chosen_url : List Char) (parsed : ExtractResult) : HotelRow :=
  { hotel_code := stay.hotel_code
    city := stay.city
    hotel_name := stay.hotel_name
    provider_name := "OYO".toList
    currency := parsed.currency
    price := parsed.price
    price_raw := parsed.price_raw
    url := chosen_url
    checkin_date := fmtYMD travelDate
    checkout_date := fmtYMD (nextDay travelDate) }

/-- Model of `scrape_hotel_rates`: per stay, try the dated candidate URLs in order;
with no successful fetch the stay is skipped (`continue`); otherwise parse the
fetched page and append the row. -/
def scrape_hotel_rates (fetch : List Char → Option (List Char))
    (stays : List HotelStay) : List HotelRow :=
  stays.filterMap fun stay =>
    (tryFetchFirst fetch (hotelCandidates stay)).map fun uh =>
      hotelRowOf stay uh.1 (parse_oyo_page uh.2)

/-- One entry of `RENTAL_CAR_OFFERS` in `config.py`. -/
structure RentalOffer where
  rental_code : List Char
  pickup_city : List Char
  dropoff_city : List Char
  route_name : List Char
  url : List Char
  travel_date : Option (List Char)
deriving DecidableEq, Repr

/-- One row of the list returned by `scrape_rental_car_prices`. -/
structure RentalRow where
  rental_code : List Char
  pickup_city : List Char
  dropoff_city : List Char
  pickup_date : Option (List Char)
  dropoff_date : Option (List Char)
  route_name : List Char
  provider_name : List Char
  currency : List Char
  price : Option Nat
  price_raw : List Char
  url : List Char
  travel_date : Option (List Char)
deriving DecidableEq, Repr

/-- The `row` dict assembled by `scrape_rental_car_prices` for one offer. -/
def rentalRowOf (offer : RentalOffer) (parsed : ExtractResult) : RentalRow :=
  { rental_code := offer.rental_code
    pickup_city := offer.pickup_city
    dropoff_city := offer.dropoff_city
    pickup_date := offer.travel_date
    dropoff_date := none
    route_name := offer.route_name
    provider_name := "Gozo Cabs".toList
    currency := parsed.currency
    price := parsed.price
    price_raw := parsed.price_raw
    url := offer.url
    travel_date := offer.travel_date }

/-- Model of `scrape_rental_car_prices`: per offer, fetch the single URL; on success
parse and append; on any exception skip and continue. -/
def scrape_rental_car_prices (fetch : List Char → Option (List Char))
    (offers : List RentalOffer) : List RentalRow :=
  offers.filterMap fun offer =>
    (fetch offer.url).map fun html => rentalRowOf offer (parse_gozo_page html)

/-! ### The run entry point (`run_scraper.main`)

`scraped_at = datetime.datetime.now(timezone.utc)` is taken once at the start
of the run; the wall clock is the boundary of the model, so the timestamp is
an abstract parameter handed to `runAll` exactly once, mirroring the single
`now()` call.  Database engine creation and the inserts are out of scope; the
model returns the three `rows_for_db` lists that `main` builds and passes to
the insert helpers. -/

/-- One element of `rows_for_db` for flights in `run_scraper.main`. -/
structure FlightDbRow where
  row : FlightRow
  scraped_at_utc : Nat
deriving DecidableEq, Repr

/-- One element of `hotel_rows_for_db` in `run_scraper.main`. -/
structure HotelDbRow where
  row : HotelRow
  scraped_at_utc : Nat
deriving DecidableEq, Repr

/-- One element of `rental_rows_for_db` in `run_scraper.main`; `main`
overrides `pickup_date` with `TRAVEL_DATE_STR` and forces `dropoff_date`
to `None`. -/
structure RentalDbRow where
  rental_code : List Char
  pickup_city : List Char
  dropoff_city : List Char
  pickup_date : List Char
  dropoff_date : Option (List Char)
  route_name : List Char
  provider_name : List Char
  currency : List Char
  price : Option Nat
  price_raw : List Char
  url : List Char
  travel_date : Option (List Char)
  scraped_at_utc : Nat
deriving DecidableEq, Repr

/-- The rental field copy in `run_scraper.main`. -/
def rentalDbRowOf (r : RentalRow) (scraped_at : Nat) : RentalDbRow :=
  { rental_code := r.rental_code
    pickup_city := r.pickup_city
    dropoff_city := r.dropoff_city
    pickup_date := TRAVEL_DATE_STR
    dropoff_date := none
    route_name := r.route_name
    provider_name := r.provider_name
    currency := r.currency
    price := r.price
    price_raw := r.price_raw
    url := r.url
    travel_date := r.travel_date
    scraped_at_utc := scraped_at }

/-- Model of `run_scraper.main`: run the three orchestrators in sequence and stamp
every produced row with the one `scraped_at` taken at the start of the run. -/
def runAll (fetch : List Char → Option (List Char)) (scraped_at : Nat)
    (flights : List FlightRoute) (hotels : List HotelStay) (rentals : List RentalOffer) :
    List FlightDbRow × List HotelDbRow × List RentalDbRow :=
  ((scrape_flight_prices fetch flights).map fun r => ⟨r, scraped_at⟩,
   (scrape_hotel_rates fetch hotels).map fun h => ⟨h, scraped_at⟩,
   (scrape_rental_car_prices fetch rentals).map fun r => rentalDbRowOf r scraped_at)

/-! ### Shared lemmas -/

theorem numChar_not_whitespace {c : Char} (h : isNumChar c = true) : ¬ c.isWhitespace = true := by
  intro hw
  simp only [Char.isWhitespace, Bool.or_eq_true, decide_eq_true_eq] at hw
  rcases hw with ((rfl | rfl) | rfl) | rfl <;> exact absurd h (by decide)

theorem findCheapest_cons (c : Char) (cs : List Char) :
    findCheapest (c :: cs) =
      match tryAt (c :: cs) with
      | some g => some g
      | none => findCheapest cs := rfl

theorem findCheapest_of_tryAt {s g : List Char} (hs : s ≠ []) (h : tryAt s = some g) :
    findCheapest s = some g := by
  obtain ⟨c, cs, rfl⟩ := List.exists_cons_of_ne_nil hs
  rw [findCheapest_cons, h]

theorem findCheapest_skip (pre rest : List Char)
    (h : ∀ k ∈ List.range pre.length, tryAt ((pre ++ rest).drop k) = none) :
    findCheapest (pre ++ rest) = findCheapest rest := by
  induction pre with
  | nil => rfl
  | cons c pre ih =>
    have h0 : tryAt (c :: (pre ++ rest)) = none := by
      have := h 0 (by simp)
      simpa using this
    rw [List.cons_append, findCheapest_cons, h0]
    exact ih fun k hk => by
      have := h (k + 1) (by simp only [List.mem_range, List.length_cons] at hk ⊢; omega)
      simpa using this

theorem tryAt_label (rest : List Char) :
    tryAt ("Cheapest deal".toList ++ rest) = matchAfterLabel rest := by
  unfold tryAt
  rw [show (13 : Nat) = ("Cheapest deal".toList).length from rfl, List.take_left, List.drop_left]
  rw [if_pos (by decide)]

theorem matchAfterLabel_found (mid ws g post : List Char)
    (hmid : ∀ c ∈ mid, c ≠ '₹')
    (hws : ∀ c ∈ ws, c.isWhitespace = true)
    (hg : g ≠ []) (hgnum : ∀ c ∈ g, isNumChar c = true)
    (hpost : ∀ c ∈ post.take 1, isNumChar c = false) :
    matchAfterLabel (mid ++ '₹' :: (ws ++ (g ++ post))) = some g := by
  have h1 : (mid ++ '₹' :: (ws ++ (g ++ post))).dropWhile (fun c => c ≠ '₹') =
      '₹' :: (ws ++ (g ++ post)) := by
    rw [List.dropWhile_append_of_pos (fun a ha => by simpa using hmid a ha)]
    exact List.dropWhile_cons_of_neg (by simp)
  have h2 : (ws ++ (g ++ post)).dropWhile Char.isWhitespace = g ++ post := by
    rw [List.dropWhile_append_of_pos hws]
    obtain ⟨ghd, gtl, rfl⟩ := List.exists_cons_of_ne_nil hg
    exact List.dropWhile_cons_of_neg
      (numChar_not_whitespace (hgnum ghd (List.mem_cons_self ghd gtl)))
  have h3 : (g ++ post).takeWhile isNumChar = g := by
    rw [List.takeWhile_append_of_pos hgnum]
    have h4 : post.takeWhile isNumChar = [] := by
      cases post with
      | nil => rfl
      | cons p0 ps =>
        exact List.takeWhile_cons_of_neg
          (by simpa using hpost p0 (by simp))
    rw [h4, List.append_nil]
  unfold matchAfterLabel
  rw [h1]
  simp only [h2, h3]
  rw [if_neg hg]

/-! ### Claim C1 -/

/-- Claim C1. Variant A (flight extraction, `parse_skyscanner_page`) takes as
the price the value of the digit group that follows the label phrase
`Cheapest deal` (matched case-insensitively) within the lookahead window after
the label (the window extends to the first currency marker, `[^₹]*₹`): for
every page text of the shape
`pre ++ "Cheapest deal" ++ mid ++ '₹' ++ ws ++ g ++ post` — where no earlier
start position matches the labelled pattern, the window `mid` contains no
`'₹'`, `ws` is whitespace, `g` is the maximal nonempty digit group parsing to
`v` — the extracted price is `v` and the raw string is `"₹ " ++ g`, whatever
other price tokens `post` contains.  Instantiated by the witness on
`"Book now! Cheapest deal to Delhi ₹ 4,999 then ₹ 100 fee and ₹ 50,000 fare"`:
the result is 4999, not the global minimum 100 nor the maximum 50000. -/
theorem c1_labeled_cheapest_deal
    (pre mid ws g post : List Char) (v : Nat)
    (hpre : ∀ k ∈ List.range pre.length,
      tryAt ((pre ++ ("Cheapest deal".toList ++ (mid ++ '₹' :: (ws ++ (g ++ post))))).drop k) = none)
    (hmid : ∀ c ∈ mid, c ≠ '₹')
    (hws : ∀ c ∈ ws, c.isWhitespace = true)
    (hg : g ≠ []) (hgnum : ∀ c ∈ g, isNumChar c = true)
    (hpost : ∀ c ∈ post.take 1, isNumChar c = false)
    (hv : parseGroup g = some v) :
    (parse_skyscanner_page
        (pre ++ ("Cheapest deal".toList ++ (mid ++ '₹' :: (ws ++ (g ++ post)))))).price = some v ∧
    (parse_skyscanner_page
        (pre ++ ("Cheapest deal".toList ++ (mid ++ '₹' :: (ws ++ (g ++ post)))))).price_raw =
      '₹' :: ' ' :: g := by
  have hlabel : findCheapest ("Cheapest deal".toList ++ (mid ++ '₹' :: (ws ++ (g ++ post)))) = some g := by
    apply findCheapest_of_tryAt
    · intro hnil
      rcases List.append_eq_nil.mp hnil with ⟨h1, -⟩
      exact absurd h1 (by decide)
    · rw [tryAt_label]
      exact matchAfterLabel_found mid ws g post hmid hws hg hgnum hpost
  have hfind : findCheapest
      (pre ++ ("Cheapest deal".toList ++ (mid ++ '₹' :: (ws ++ (g ++ post))))) = some g := by
    rw [findCheapest_skip pre _ hpre, hlabel]
  constructor <;> simp only [parse_skyscanner_page, hfind, hv]

/-- Witness for C1 on the spec's own test text: the labelled value 4999 wins
while the page's token values are `[4999, 100, 50000]`, so the result is
neither the global minimum nor the global maximum. -/
theorem c1_witness :
    (parse_skyscanner_page
        "Book now! Cheapest deal to Delhi ₹ 4,999 then ₹ 100 fee and ₹ 50,000 fare".toList).price =
      some 4999 ∧
    tokenValues
        "Book now! Cheapest deal to Delhi ₹ 4,999 then ₹ 100 fee and ₹ 50,000 fare".toList =
      [4999, 100, 50000] :=
  ⟨(c1_labeled_cheapest_deal "Book now! ".toList " to Delhi ".toList " ".toList
      "4,999".toList " then ₹ 100 fee and ₹ 50,000 fare".toList 4999
      (by decide) (by decide) (by decide) (by decide) (by decide) (by decide) (by decide)).1,
   by decide⟩

/-! ### Claims C4, C2, C3 -/

theorem skyFallbackResult_price (t : List Char) :
    (skyFallbackResult t).price = (tokenValues t).min? := by
  unfold skyFallbackResult
  cases h : (tokenValues t).min? <;> simp [h]

/-- Claim C4. When the labelled `Cheapest deal` search finds no match, or the
matched digit group fails to parse (`(findCheapest text).bind parseGroup =
none` covers exactly these two cases), Variant A returns the minimum numeric
value among all price tokens on the page, and the absence of any parseable
token yields an absent price. -/
theorem c4_fallback_min
    (text : List Char) (h : (findCheapest text).bind parseGroup = none) :
    (parse_skyscanner_page text).price = (tokenValues text).min? ∧
    (tokenValues text = [] → (parse_skyscanner_page text).price = none) := by
  have hprice : (parse_skyscanner_page text).price = (tokenValues text).min? := by
    unfold parse_skyscanner_page
    cases hc : findCheapest text with
    | none => exact skyFallbackResult_price text
    | some g =>
      rw [hc, Option.some_bind] at h
      simp only [h]
      exact skyFallbackResult_price text
  exact ⟨hprice, fun hnil => by rw [hprice, hnil]; rfl⟩

/-- Witness for C4 on the spec's fallback test text `"fly cheap ₹900 and
₹1200"`: no labelled match, and the result is the minimum 900. -/
theorem c4_witness :
    (findCheapest "fly cheap ₹900 and ₹1200".toList).bind parseGroup = none ∧
    (parse_skyscanner_page "fly cheap ₹900 and ₹1200".toList).price =
      (tokenValues "fly cheap ₹900 and ₹1200".toList).min? ∧
    (tokenValues "fly cheap ₹900 and ₹1200".toList).min? = some 900 :=
  ⟨by decide, (c4_fallback_min "fly cheap ₹900 and ₹1200".toList (by decide)).1, by decide⟩

theorem parse_oyo_price (t : List Char) :
    (parse_oyo_page t).price = chooseTopPrice (tokenValues t) := by
  unfold parse_oyo_page
  cases h : chooseTopPrice (tokenValues t) <;> simp [h]

theorem chooseTopPrice_eq (ordered : List Nat) :
    chooseTopPrice ordered =
      (if (ordered.take 20).filter (fun v => 300 ≤ v) = []
       then (ordered.take 20).min?
       else ((ordered.take 20).filter (fun v => 300 ≤ v)).min?) := by
  unfold chooseTopPrice
  by_cases h : ordered.take 20 = []
  · simp [h]
  · rw [if_neg (by simpa [List.isEmpty_iff] using h)]
    cases hf : ((ordered.take 20).filter (fun v => 300 ≤ v)).min? with
    | none => rw [if_pos (List.min?_eq_none_iff.mp hf)]
    | some m =>
      rw [if_neg fun hnil => by rw [hnil] at hf; exact Option.noConfusion hf]

/-- Claim C2. Variant B (`parse_oyo_page`) keeps the first 20 token values in
document order, discards the kept ones below the 300 floor and returns their
minimum; when every kept token is below 300 it falls back to the minimum of
the same first 20 (not absent); with no tokens at all the price is absent
(all of which the single `min?` equation states, since `min? [] = none`); and
tokens past position 20 never influence the result: two texts agreeing on
their first 20 token values get the same price. -/
theorem c2_oyo_top20_floor (t : List Char) :
    ((parse_oyo_page t).price =
      (if ((tokenValues t).take 20).filter (fun v => 300 ≤ v) = []
       then ((tokenValues t).take 20).min?
       else (((tokenValues t).take 20).filter (fun v => 300 ≤ v)).min?)) ∧
    (∀ t' : List Char, (tokenValues t').take 20 = (tokenValues t).take 20 →
      (parse_oyo_page t').price = (parse_oyo_page t).price) := by
  constructor
  · rw [parse_oyo_price, chooseTopPrice_eq]
  · intro t' ht
    rw [parse_oyo_price, parse_oyo_price, chooseTopPrice_eq, chooseTopPrice_eq, ht]

/-- Witness for C2: a page with 25 ordered tokens whose last five (all 350+x,
below every one of the first 20) are ignored, so the price stays 500; and a
page whose first-20 tokens are all below the 300 floor falls back to their
minimum 100 rather than to an absent price. -/
theorem c2_witness :
    (tokenValues ("₹500 ₹600 ₹700 ₹800 ₹900 ₹1000 ₹1100 ₹1200 ₹1300 ₹1400 " ++
        "₹1500 ₹1600 ₹1700 ₹1800 ₹1900 ₹2000 ₹2100 ₹2200 ₹2300 ₹2400 " ++
        "₹350 ₹360 ₹370 ₹380 ₹390").toList).take 20 =
      (tokenValues ("₹500 ₹600 ₹700 ₹800 ₹900 ₹1000 ₹1100 ₹1200 ₹1300 ₹1400 " ++
        "₹1500 ₹1600 ₹1700 ₹1800 ₹1900 ₹2000 ₹2100 ₹2200 ₹2300 ₹2400").toList).take 20 ∧
    (parse_oyo_page ("₹500 ₹600 ₹700 ₹800 ₹900 ₹1000 ₹1100 ₹1200 ₹1300 ₹1400 " ++
        "₹1500 ₹1600 ₹1700 ₹1800 ₹1900 ₹2000 ₹2100 ₹2200 ₹2300 ₹2400 " ++
        "₹350 ₹360 ₹370 ₹380 ₹390").toList).price =
      (parse_oyo_page ("₹500 ₹600 ₹700 ₹800 ₹900 ₹1000 ₹1100 ₹1200 ₹1300 ₹1400 " ++
        "₹1500 ₹1600 ₹1700 ₹1800 ₹1900 ₹2000 ₹2100 ₹2200 ₹2300 ₹2400").toList).price ∧
    (parse_oyo_page ("₹500 ₹600 ₹700 ₹800 ₹900 ₹1000 ₹1100 ₹1200 ₹1300 ₹1400 " ++
        "₹1500 ₹1600 ₹1700 ₹1800 ₹1900 ₹2000 ₹2100 ₹2200 ₹2300 ₹2400").toList).price =
      some 500 ∧
    (parse_oyo_page "₹100 ₹200 ₹250".toList).price = some 100 :=
  ⟨by decide,
   (c2_oyo_top20_floor (("₹500 ₹600 ₹700 ₹800 ₹900 ₹1000 ₹1100 ₹1200 ₹1300 ₹1400 " ++
        "₹1500 ₹1600 ₹1700 ₹1800 ₹1900 ₹2000 ₹2100 ₹2200 ₹2300 ₹2400").toList)).2
     (("₹500 ₹600 ₹700 ₹800 ₹900 ₹1000 ₹1100 ₹1200 ₹1300 ₹1400 " ++
        "₹1500 ₹1600 ₹1700 ₹1800 ₹1900 ₹2000 ₹2100 ₹2200 ₹2300 ₹2400 " ++
        "₹350 ₹360 ₹370 ₹380 ₹390").toList) (by decide),
   by decide, by decide⟩

theorem parse_gozo_price (t : List Char) :
    (parse_gozo_page t).price = chooseGozoPrice (tokenValues t) := by
  unfold parse_gozo_page
  cases h : chooseGozoPrice (tokenValues t) <;> simp [h]

theorem chooseGozoPrice_eq (values : List Nat) :
    chooseGozoPrice values =
      (if values.filter (fun v => 100 ≤ v) = []
       then values.min?
       else (values.filter (fun v => 100 ≤ v)).min?) := by
  unfold chooseGozoPrice
  cases hf : (values.filter (fun v => 100 ≤ v)).min? with
  | none => rw [if_pos (List.min?_eq_none_iff.mp hf)]
  | some m =>
    rw [if_neg fun hnil => by rw [hnil] at hf; exact Option.noConfusion hf]

/-- Claim C3. Variant C (`parse_gozo_page`) collects all token values on the
page, discards those below the 100 floor and returns the minimum of the
remainder; when the filtered set is empty but tokens exist it returns the
minimum of the unfiltered set; an empty token set yields an absent price
(`min? [] = none`).  In particular tokens `[₹50, ₹50, ₹1500]` yield 1500,
tokens all below 100 yield the unfiltered minimum, and a token-free page
yields no price. -/
theorem c3_gozo_global_min_floor (t : List Char) :
    ((parse_gozo_page t).price =
      (if (tokenValues t).filter (fun v => 100 ≤ v) = []
       then (tokenValues t).min?
       else ((tokenValues t).filter (fun v => 100 ≤ v)).min?)) ∧
    (parse_gozo_page "₹50 ₹50 ₹1500".toList).price = some 1500 ∧
    (parse_gozo_page "₹50 ₹50".toList).price = some 50 ∧
    (parse_gozo_page "no rupee amounts here".toList).price = none := by
  refine ⟨?_, by decide, by decide, by decide⟩
  rw [parse_gozo_price, chooseGozoPrice_eq]

/-! ### Claims C5 and C10 -/

theorem digitsToNat_eq_ofDigits (ds : List Char) :
    digitsToNat ds = Nat.ofDigits 10 ((ds.map digitVal).reverse) := by
  suffices h : ∀ a : Nat, ds.foldl (fun a c => 10 * a + digitVal c) a =
      Nat.ofDigits 10 ((ds.map digitVal).reverse) + a * 10 ^ ds.length by
    simpa using h 0
  induction ds with
  | nil => intro a; simp [Nat.ofDigits]
  | cons c ds ih =>
    intro a
    simp only [List.foldl_cons, List.map_cons, List.reverse_cons, List.length_cons]
    rw [ih (10 * a + digitVal c), Nat.ofDigits_append]
    simp only [List.length_reverse, List.length_map, Nat.ofDigits_singleton]
    ring

/-- Counterexample for C5: the page `"₹12345"` contains exactly one price
token whose on-page display string is `"₹12345"`, yet the snapshot's
`price_raw` is the reconstructed `"₹ 12,345"`, which does not occur anywhere
on the page — so `price_raw` is not "the raw display string as found on the
page". -/
theorem c5_counterexample :
    findTokens "₹12345".toList = ["12345".toList] ∧
    (parse_skyscanner_page "₹12345".toList).price = some 12345 ∧
    (parse_skyscanner_page "₹12345".toList).price_raw = "₹ 12,345".toList ∧
    ¬ ("₹ 12,345".toList <:+: "₹12345".toList) := by
  refine ⟨by decide, by decide, by decide, fun h => ?_⟩
  have hle : ("₹ 12,345".toList).length ≤ ("₹12345".toList).length := h.sublist.length_le
  rw [show ("₹ 12,345".toList).length = 8 from rfl,
    show ("₹12345".toList).length = 6 from rfl] at hle
  omega

/-- Claim C5, amended. For every captured price-token group, the parsed numeric
value is the digit group with thousands separators stripped, read as a base-10
number (stated against Mathlib's independent `Nat.ofDigits`); the token
`"₹ 12,345"` parses to 12345.  The `price_raw` field, however, is not the
verbatim on-page substring: it is reconstructed as `"₹ "` followed by a digit
group (the captured group in the labelled path, the chosen value re-grouped
with commas in the fallback paths), which coincides with the on-page string
exactly for tokens displayed as `'₹'`, one space, and a standard comma-grouped
digit string — as for `"₹ 12,345"`, on which both paths preserve
`"₹ 12,345"`. -/
theorem c5_parse_value_and_reconstructed_raw :
    (∀ g : List Char, parseGroup g =
      (if stripCommas g = [] then none
       else some (Nat.ofDigits 10 (((stripCommas g).map digitVal).reverse)))) ∧
    tokenValues "₹ 12,345".toList = [12345] ∧
    (parse_skyscanner_page "think Cheapest deal ₹ 12,345 now".toList).price = some 12345 ∧
    (parse_skyscanner_page "think Cheapest deal ₹ 12,345 now".toList).price_raw =
      "₹ 12,345".toList ∧
    (parse_skyscanner_page "fare ₹ 12,345 only".toList).price = some 12345 ∧
    (parse_skyscanner_page "fare ₹ 12,345 only".toList).price_raw = "₹ 12,345".toList := by
  refine ⟨fun g => ?_, by decide, by decide, by decide, by decide, by decide⟩
  unfold parseGroup
  by_cases h : stripCommas g = []
  · simp [h]
  · rw [if_neg h, if_neg h, digitsToNat_eq_ofDigits]

/-- Claim C10. The extraction functions are total (they are Lean functions on
arbitrary page texts) and a regex-captured digit group consisting only of
commas fails numeric parsing without raising: such groups are skipped in the
token-collection paths (Variants B and C and the Variant A fallback, via
`tokenValues`), and in Variant A's labelled path a comma-only group makes the
function fall back to the minimum-of-all-tokens rule. -/
theorem c10_comma_group_skipped :
    (∀ g : List Char, g ≠ [] → (∀ c ∈ g, c = ',') → parseGroup g = none) ∧
    (∀ (t g : List Char), findCheapest t = some g → parseGroup g = none →
      (parse_skyscanner_page t).price = (tokenValues t).min?) ∧
    parse_oyo_page "pay ₹ , now".toList = ⟨"INR".toList, none, []⟩ ∧
    parse_gozo_page "pay ₹ , now".toList = ⟨"INR".toList, none, []⟩ ∧
    (parse_skyscanner_page "Cheapest deal ₹ , or ₹ 999".toList).price = some 999 := by
  refine ⟨fun g hg hall => ?_, fun t g hc hp => ?_, by decide, by decide, by decide⟩
  · have hstrip : stripCommas g = [] := by
      unfold stripCommas
      rw [List.filter_eq_nil_iff]
      intro a ha
      simp [hall a ha]
    unfold parseGroup
    rw [if_pos hstrip]
  · unfold parse_skyscanner_page
    simp only [hc, hp]
    exact skyFallbackResult_price t

/-- Witness for C10: the comma-only group of the text `"Cheapest deal ₹ ,
or ₹ 999"` parses to nothing, and the labelled path falls back to the
minimum of all tokens, 999. -/
theorem c10_witness :
    parseGroup [','] = none ∧
    (parse_skyscanner_page "Cheapest deal ₹ , or ₹ 999".toList).price =
      (tokenValues "Cheapest deal ₹ , or ₹ 999".toList).min? ∧
    (tokenValues "Cheapest deal ₹ , or ₹ 999".toList).min? = some 999 :=
  ⟨c10_comma_group_skipped.1 [','] (by decide) (by decide),
   c10_comma_group_skipped.2.1 "Cheapest deal ₹ , or ₹ 999".toList [',']
     (by decide) (by decide),
   by decide⟩

/-! ### Claims C6 and C7 -/

theorem skyFallbackResult_currency (t : List Char) :
    (skyFallbackResult t).currency = DEFAULT_CURRENCY := by
  unfold skyFallbackResult
  cases hm : (tokenValues t).min? <;> simp only [hm]

theorem parse_skyscanner_currency (t : List Char) :
    (parse_skyscanner_page t).currency = DEFAULT_CURRENCY := by
  cases hc : findCheapest t with
  | none =>
    simp only [parse_skyscanner_page, hc]
    exact skyFallbackResult_currency t
  | some g =>
    cases hp : parseGroup g with
    | none =>
      simp only [parse_skyscanner_page, hc, hp]
      exact skyFallbackResult_currency t
    | some v => simp only [parse_skyscanner_page, hc, hp]

theorem skyFallbackResult_raw_of_none (t : List Char)
    (h : (skyFallbackResult t).price = none) : (skyFallbackResult t).price_raw = [] := by
  unfold skyFallbackResult at h ⊢
  cases hm : (tokenValues t).min? <;> simp only [hm] at h ⊢
  exact Option.noConfusion h

theorem parse_skyscanner_raw_of_none (t : List Char)
    (h : (parse_skyscanner_page t).price = none) :
    (parse_skyscanner_page t).price_raw = [] := by
  cases hc : findCheapest t with
  | none =>
    simp only [parse_skyscanner_page, hc] at h ⊢
    exact skyFallbackResult_raw_of_none t h
  | some g =>
    cases hp : parseGroup g with
    | none =>
      simp only [parse_skyscanner_page, hc, hp] at h ⊢
      exact skyFallbackResult_raw_of_none t h
    | some v =>
      simp only [parse_skyscanner_page, hc, hp] at h
      exact Option.noConfusion h

theorem scrape_flight_length (fetch : List Char → Option (List Char))
    (routes : List FlightRoute) :
    (scrape_flight_prices fetch routes).length =
      (routes.filter (fun r => (fetch r.url).isSome)).length := by
  induction routes with
  | nil => rfl
  | cons r rs ih =>
    unfold scrape_flight_prices at ih ⊢
    cases h : fetch r.url <;>
      simp [List.filterMap_cons, List.filter_cons, h, ih]

/-- Claim C6. A flight target whose fetch succeeds always contributes a Price
Snapshot row, even when the page yields no usable price: the row built from
the parse result is in the orchestrator's output, it always carries the
default currency `"INR"`, and when the extracted price is absent the row
records `price = none` together with an empty `price_raw` — absence is
represented, not omitted.  Only total fetch failure skips a target: the number
of produced rows is exactly the number of routes whose fetch succeeds. -/
theorem c6_null_price_snapshot_recorded
    (fetch : List Char → Option (List Char)) (routes : List FlightRoute)
    (route : FlightRoute) (html : List Char)
    (hmem : route ∈ routes) (hf : fetch route.url = some html) :
    flightRowOf route (parse_skyscanner_page html) ∈ scrape_flight_prices fetch routes ∧
    (flightRowOf route (parse_skyscanner_page html)).currency = "INR".toList ∧
    ((parse_skyscanner_page html).price = none →
      (flightRowOf route (parse_skyscanner_page html)).price = none ∧
      (flightRowOf route (parse_skyscanner_page html)).price_raw = []) ∧
    (scrape_flight_prices fetch routes).length =
      (routes.filter (fun r => (fetch r.url).isSome)).length := by
  refine ⟨?_, parse_skyscanner_currency html, fun hn => ⟨hn, ?_⟩,
    scrape_flight_length fetch routes⟩
  · exact List.mem_filterMap.mpr ⟨route, hmem, by rw [hf]; rfl⟩
  · exact parse_skyscanner_raw_of_none html hn

/-- Witness for C6: a page with no price tokens still yields a recorded row
with currency `"INR"`, a `none` price and an empty raw string. -/
theorem c6_witness :
    flightRowOf
        ⟨"BLR-DEL".toList, "BLR".toList, "DEL".toList, "Bengaluru to Delhi".toList,
          "u1".toList, some "2025-12-07".toList⟩
        (parse_skyscanner_page "layout changed, no prices".toList) ∈
      scrape_flight_prices
        (fun u => if u = "u1".toList then some "layout changed, no prices".toList else none)
        [⟨"BLR-DEL".toList, "BLR".toList, "DEL".toList, "Bengaluru to Delhi".toList,
          "u1".toList, some "2025-12-07".toList⟩] ∧
    (flightRowOf
        ⟨"BLR-DEL".toList, "BLR".toList, "DEL".toList, "Bengaluru to Delhi".toList,
          "u1".toList, some "2025-12-07".toList⟩
        (parse_skyscanner_page "layout changed, no prices".toList)).currency = "INR".toList ∧
    (flightRowOf
        ⟨"BLR-DEL".toList, "BLR".toList, "DEL".toList, "Bengaluru to Delhi".toList,
          "u1".toList, some "2025-12-07".toList⟩
        (parse_skyscanner_page "layout changed, no prices".toList)).price = none ∧
    (flightRowOf
        ⟨"BLR-DEL".toList, "BLR".toList, "DEL".toList, "Bengaluru to Delhi".toList,
          "u1".toList, some "2025-12-07".toList⟩
        (parse_skyscanner_page "layout changed, no prices".toList)).price_raw = [] := by
  have h := c6_null_price_snapshot_recorded
    (fun u => if u = "u1".toList then some "layout changed, no prices".toList else none)
    [⟨"BLR-DEL".toList, "BLR".toList, "DEL".toList, "Bengaluru to Delhi".toList,
      "u1".toList, some "2025-12-07".toList⟩]
    ⟨"BLR-DEL".toList, "BLR".toList, "DEL".toList, "Bengaluru to Delhi".toList,
      "u1".toList, some "2025-12-07".toList⟩
    "layout changed, no prices".toList (by decide) (by decide)
  exact ⟨h.1, h.2.1, (h.2.2.1 (by decide)).1, (h.2.2.1 (by decide)).2⟩

theorem tryFetchFirst_none (fetch : List Char → Option (List Char))
    (cands : List (List Char)) (h : ∀ c ∈ cands, fetch c = none) :
    tryFetchFirst fetch cands = none := by
  induction cands with
  | nil => rfl
  | cons u us ih =>
    unfold tryFetchFirst
    rw [h u (by simp)]
    exact ih fun c hc => h c (by simp [hc])

theorem tryFetchFirst_first_success (fetch : List Char → Option (List Char))
    (us : List (List Char)) (u : List Char) (vs : List (List Char)) (html : List Char)
    (hus : ∀ w ∈ us, fetch w = none) (hu : fetch u = some html) :
    tryFetchFirst fetch (us ++ u :: vs) = some (u, html) := by
  induction us with
  | nil => simp only [List.nil_append, tryFetchFirst, hu]
  | cons w ws ih =>
    rw [List.cons_append]
    simp only [tryFetchFirst, hus w (by simp)]
    exact ih fun x hx => hus x (by simp [hx])

/-- Claim C7. Hotel candidate URLs are attempted in order.  First part: a stay
all of whose candidates fail is skipped — it contributes nothing and the rows
of the surrounding stays are unaffected (processing is not aborted).  Second
part: when the candidates split as `us ++ u :: vs` with every URL of `us`
failing and `u` fetching `html`, the stay contributes exactly one row built
from `u` and the parse of `html`; the conclusion holds for arbitrary fetch
behaviour on the remaining candidates `vs`, which formalises that they are
never tried. -/
theorem c7_hotel_candidate_fallback :
    (∀ (fetch : List Char → Option (List Char)) (pre post : List HotelStay) (stay : HotelStay),
      (∀ c ∈ hotelCandidates stay, fetch c = none) →
      scrape_hotel_rates fetch (pre ++ stay :: post) =
        scrape_hotel_rates fetch pre ++ scrape_hotel_rates fetch post) ∧
    (∀ (fetch : List Char → Option (List Char)) (stay : HotelStay)
        (us : List (List Char)) (u : List Char) (vs : List (List Char)) (html : List Char),
      hotelCandidates stay = us ++ u :: vs →
      (∀ w ∈ us, fetch w = none) → fetch u = some html →
      scrape_hotel_rates fetch [stay] = [hotelRowOf stay u (parse_oyo_page html)]) := by
  constructor
  · intro fetch pre post stay hall
    unfold scrape_hotel_rates
    rw [List.filterMap_append, List.filterMap_cons, tryFetchFirst_none fetch _ hall]
    rfl
  · intro fetch stay us u vs html hcand hus hu
    unfold scrape_hotel_rates
    rw [List.filterMap_cons, hcand, tryFetchFirst_first_success fetch us u vs html hus hu]
    rfl

/-- Witness for C7: a stay with three mirror URLs whose first two candidates
fail and whose third succeeds yields exactly one row recording the third
candidate URL; and a stay whose only candidate fails is skipped without
disturbing its neighbours. -/
theorem c7_witness :
    scrape_hotel_rates
        (fun x => if x = build_oyo_url_with_dates "c".toList
          then some "₹ 450 ₹ 900".toList else none)
        [⟨"MUM1".toList, "Mumbai".toList, "OYO Mumbai".toList,
          ["a".toList, "b".toList, "c".toList]⟩] =
      [hotelRowOf
        ⟨"MUM1".toList, "Mumbai".toList, "OYO Mumbai".toList,
          ["a".toList, "b".toList, "c".toList]⟩
        (build_oyo_url_with_dates "c".toList) (parse_oyo_page "₹ 450 ₹ 900".toList)] ∧
    scrape_hotel_rates
        (fun x => if x = build_oyo_url_with_dates "c".toList
          then some "₹ 450 ₹ 900".toList else none)
        ([⟨"MUM1".toList, "Mumbai".toList, "OYO Mumbai".toList,
            ["a".toList, "b".toList, "c".toList]⟩] ++
          ⟨"CHE1".toList, "Chennai".toList, "OYO Chennai".toList, ["x".toList]⟩ :: []) =
      scrape_hotel_rates
        (fun x => if x = build_oyo_url_with_dates "c".toList
          then some "₹ 450 ₹ 900".toList else none)
        [⟨"MUM1".toList, "Mumbai".toList, "OYO Mumbai".toList,
          ["a".toList, "b".toList, "c".toList]⟩] ++
      scrape_hotel_rates
        (fun x => if x = build_oyo_url_with_dates "c".toList
          then some "₹ 450 ₹ 900".toList else none) [] :=
  ⟨c7_hotel_candidate_fallback.2
      (fun x => if x = build_oyo_url_with_dates "c".toList
        then some "₹ 450 ₹ 900".toList else none)
      ⟨"MUM1".toList, "Mumbai".toList, "OYO Mumbai".toList,
        ["a".toList, "b".toList, "c".toList]⟩
      [build_oyo_url_with_dates "a".toList, build_oyo_url_with_dates "b".toList]
      (build_oyo_url_with_dates "c".toList) [] "₹ 450 ₹ 900".toList
      rfl (by decide) (by decide),
   c7_hotel_candidate_fallback.1
      (fun x => if x = build_oyo_url_with_dates "c".toList
        then some "₹ 450 ₹ 900".toList else none)
      [⟨"MUM1".toList, "Mumbai".toList, "OYO Mumbai".toList,
        ["a".toList, "b".toList, "c".toList]⟩] []
      ⟨"CHE1".toList, "Chennai".toList, "OYO Chennai".toList, ["x".toList]⟩
      (by decide)⟩

/-! ### Claims C8 and C9 -/

theorem scrape_flight_length_total (fetch : List Char → Option (List Char))
    (routes : List FlightRoute) (h : ∀ u, (fetch u).isSome) :
    (scrape_flight_prices fetch routes).length = routes.length := by
  induction routes with
  | nil => rfl
  | cons r rs ih =>
    unfold scrape_flight_prices at ih ⊢
    cases hf : fetch r.url with
    | none => have hs := h r.url; rw [hf] at hs; exact Bool.noConfusion hs
    | some html => simp [List.filterMap_cons, hf, ih]

theorem scrape_rental_length_total (fetch : List Char → Option (List Char))
    (offers : List RentalOffer) (h : ∀ u, (fetch u).isSome) :
    (scrape_rental_car_prices fetch offers).length = offers.length := by
  induction offers with
  | nil => rfl
  | cons r rs ih =>
    unfold scrape_rental_car_prices at ih ⊢
    cases hf : fetch r.url with
    | none => have hs := h r.url; rw [hf] at hs; exact Bool.noConfusion hs
    | some html => simp [List.filterMap_cons, hf, ih]

theorem tryFetchFirst_isSome_of_total (fetch : List Char → Option (List Char))
    (cands : List (List Char)) (hne : cands ≠ []) (h : ∀ u, (fetch u).isSome) :
    (tryFetchFirst fetch cands).isSome = true := by
  obtain ⟨c, cs, rfl⟩ := List.exists_cons_of_ne_nil hne
  cases hf : fetch c with
  | none => have hs := h c; rw [hf] at hs; exact Bool.noConfusion hs
  | some html => simp only [tryFetchFirst, hf, Option.isSome_some]

theorem scrape_hotel_length_total (fetch : List Char → Option (List Char))
    (stays : List HotelStay) (h : ∀ u, (fetch u).isSome)
    (hne : ∀ s ∈ stays, s.urls ≠ []) :
    (scrape_hotel_rates fetch stays).length = stays.length := by
  induction stays with
  | nil => rfl
  | cons s ss ih =>
    unfold scrape_hotel_rates at ih ⊢
    have hcne : hotelCandidates s ≠ [] := by
      intro hnil
      exact hne s (by simp) (List.map_eq_nil_iff.mp hnil)
    have hsome := tryFetchFirst_isSome_of_total fetch (hotelCandidates s) hcne h
    obtain ⟨uh, huh⟩ := Option.isSome_iff_exists.mp hsome
    rw [List.filterMap_cons, huh]
    simp only [Option.map_some', List.length_cons]
    rw [ih fun x hx => hne x (by simp [hx])]

/-- Claim C8. A full run over `N` flight targets, `M` hotel targets and `K`
rental targets in which every fetch succeeds produces exactly `N + M + K`
snapshot rows, and every produced row carries the single run timestamp that
`main` takes once (`scraped_at = datetime.now(utc)`) and applies to every
snapshot — not per-target wall-clock time.  (Hotel targets are assumed to
have at least one candidate URL, as every configured stay does.) -/
theorem c8_run_counts_and_shared_timestamp
    (fetch : List Char → Option (List Char)) (scraped_at : Nat)
    (flights : List FlightRoute) (hotels : List HotelStay) (rentals : List RentalOffer)
    (hfetch : ∀ u, (fetch u).isSome)
    (hurls : ∀ s ∈ hotels, s.urls ≠ []) :
    (runAll fetch scraped_at flights hotels rentals).1.length +
      (runAll fetch scraped_at flights hotels rentals).2.1.length +
      (runAll fetch scraped_at flights hotels rentals).2.2.length =
      flights.length + hotels.length + rentals.length ∧
    (∀ row ∈ (runAll fetch scraped_at flights hotels rentals).1,
      row.scraped_at_utc = scraped_at) ∧
    (∀ row ∈ (runAll fetch scraped_at flights hotels rentals).2.1,
      row.scraped_at_utc = scraped_at) ∧
    (∀ row ∈ (runAll fetch scraped_at flights hotels rentals).2.2,
      row.scraped_at_utc = scraped_at) := by
  refine ⟨?_, ?_, ?_, ?_⟩
  · unfold runAll
    simp only [List.length_map]
    rw [scrape_flight_length_total fetch flights hfetch,
      scrape_hotel_length_total fetch hotels hfetch hurls,
      scrape_rental_length_total fetch rentals hfetch]
  · intro row hrow
    unfold runAll at hrow
    obtain ⟨r, -, rfl⟩ := List.mem_map.mp hrow
    rfl
  · intro row hrow
    unfold runAll at hrow
    obtain ⟨r, -, rfl⟩ := List.mem_map.mp hrow
    rfl
  · intro row hrow
    unfold runAll at hrow
    obtain ⟨r, -, rfl⟩ := List.mem_map.mp hrow
    rfl

/-- Witness for C8: one flight route, one hotel stay and one rental offer
under a totally successful fetch yield 3 rows, stamped 42 across the board. -/
theorem c8_witness :
    (runAll (fun _ => some "₹ 450".toList) 42
        [⟨"BLR-DEL".toList, "BLR".toList, "DEL".toList, "r".toList, "u1".toList, none⟩]
        [⟨"CHE1".toList, "Chennai".toList, "h".toList, ["u2".toList]⟩]
        [⟨"BLR-MYS".toList, "BLR".toList, "MYS".toList, "r2".toList, "u3".toList, none⟩]).1.length +
      (runAll (fun _ => some "₹ 450".toList) 42
        [⟨"BLR-DEL".toList, "BLR".toList, "DEL".toList, "r".toList, "u1".toList, none⟩]
        [⟨"CHE1".toList, "Chennai".toList, "h".toList, ["u2".toList]⟩]
        [⟨"BLR-MYS".toList, "BLR".toList, "MYS".toList, "r2".toList, "u3".toList, none⟩]).2.1.length +
      (runAll (fun _ => some "₹ 450".toList) 42
        [⟨"BLR-DEL".toList, "BLR".toList, "DEL".toList, "r".toList, "u1".toList, none⟩]
        [⟨"CHE1".toList, "Chennai".toList, "h".toList, ["u2".toList]⟩]
        [⟨"BLR-MYS".toList, "BLR".toList, "MYS".toList, "r2".toList, "u3".toList, none⟩]).2.2.length
      = 3 ∧
    ∀ row ∈ (runAll (fun _ => some "₹ 450".toList) 42
        [⟨"BLR-DEL".toList, "BLR".toList, "DEL".toList, "r".toList, "u1".toList, none⟩]
        [⟨"CHE1".toList, "Chennai".toList, "h".toList, ["u2".toList]⟩]
        [⟨"BLR-MYS".toList, "BLR".toList, "MYS".toList, "r2".toList, "u3".toList, none⟩]).1,
      row.scraped_at_utc = 42 := by
  have h := c8_run_counts_and_shared_timestamp (fun _ => some "₹ 450".toList) 42
    [⟨"BLR-DEL".toList, "BLR".toList, "DEL".toList, "r".toList, "u1".toList, none⟩]
    [⟨"CHE1".toList, "Chennai".toList, "h".toList, ["u2".toList]⟩]
    [⟨"BLR-MYS".toList, "BLR".toList, "MYS".toList, "r2".toList, "u3".toList, none⟩]
    (fun _ => rfl) (by decide)
  exact ⟨h.1, h.2.1⟩

/-- Claim C9. The function `_build_oyo_url_with_dates` appends to every hotel base URL a
query string whose `checkin` is the fixed travel date `2025-12-07` and whose
`checkout` is check-in plus one day, both reformatted to the site's
`DD/MM/YYYY` format (URL-encoded, `/` as `%2F`), together with the fixed
parameters requesting ascending price sort (`sort=price&sortOrder=ascending`)
and `guests=1&rooms=1`, separated from the base URL by `'&'` when the base
already contains `'?'` and by `'?'` otherwise. -/
theorem c9_oyo_url_construction (base_url : List Char) :
    build_oyo_url_with_dates base_url =
      base_url ++ (if base_url.contains '?' then ['&'] else ['?']) ++ urlencode oyoParams ∧
    parseISODate TRAVEL_DATE_STR = some ⟨2025, 12, 7⟩ ∧
    travelDate = ⟨2025, 12, 7⟩ ∧
    nextDay travelDate = ⟨2025, 12, 8⟩ ∧
    fmtDMY travelDate = "07/12/2025".toList ∧
    fmtDMY (nextDay travelDate) = "08/12/2025".toList ∧
    urlencode oyoParams =
      ("checkin=07%2F12%2F2025&checkout=08%2F12%2F2025" ++
        "&guests=1&rooms=1&sort=price&sortOrder=ascending").toList :=
  ⟨rfl, by decide, by decide, by decide, by decide, by decide, by decide⟩

end TravelTracker
